import Mathlib

/-!
Shallow embedding of the `infinitode.py` client library
(`src/infinitode/{errors,utils,core,score,leaderboard,player}.py`).

The HTTP transport and the bs4 HTML parser are external collaborators:
an HTTP response is modelled as a record carrying the transport status
and the decoded JSON payload, and a parsed profile page is modelled as
a record holding the results of the CSS-selector queries that
`Session._parse_player` performs.  All string surgery
(`str.split`, `str.replace`, `int(...)`, slicing) done by the library
itself is embedded faithfully.
-/

namespace Infinitode

/-- Exception model.  `apiError`, `badArgument` and `infinitodeError`
mirror the classes of `errors.py`; the remaining constructors mirror
the built-in Python exceptions the code can raise. -/
inductive PyError where
  | apiError (msg : String)
  | badArgument (msg : String)
  | infinitodeError (msg : String)
  | typeError (msg : String)
  | valueError
  | keyError
  | indexError
  | attributeError
  deriving Repr, DecidableEq

/-- Value of a digit string, used only on all-digit input. -/
def digitsVal (cs : List Char) : Nat :=
  cs.foldl (fun n c => 10 * n + (c.toNat - 48)) 0

/-- Fuel-based worker for `strSplitOn`.  Each step consumes at least
one character, so fuel `length + 1` is enough; the recursion is
structural on the fuel so the kernel can evaluate it. -/
def splitOnFuel (sep : List Char) : Nat → List Char → List Char → List (List Char)
  | 0, cs, acc => [acc.reverse ++ cs]
  | fuel + 1, cs, acc =>
    match cs with
    | [] => [acc.reverse]
    | c :: rest =>
      if sep.isPrefixOf (c :: rest) then
        acc.reverse :: splitOnFuel sep fuel (List.drop sep.length (c :: rest)) []
      else splitOnFuel sep fuel rest (c :: acc)

/-- Python `s.split(sep)` for a non-empty separator: split at each
non-overlapping occurrence, scanned left to right. -/
def strSplitOn (s sep : String) : List String :=
  (splitOnFuel sep.data (s.data.length + 1) s.data []).map fun cs => String.mk cs

/-- Fuel-based worker for `strReplace`. -/
def replaceFuel (old new : List Char) : Nat → List Char → List Char
  | 0, cs => cs
  | fuel + 1, cs =>
    match cs with
    | [] => []
    | c :: rest =>
      if old.isPrefixOf (c :: rest) then
        new ++ replaceFuel old new fuel (List.drop old.length (c :: rest))
      else c :: replaceFuel old new fuel rest

/-- Python `s.replace(old, new)` for a non-empty `old`. -/
def strReplace (s old new : String) : String :=
  ⟨replaceFuel old.data new.data (s.data.length + 1) s.data⟩

/-- Whitespace stripping as done by Python `int(...)`. -/
def strTrim (s : String) : String :=
  ⟨((s.data.dropWhile Char.isWhitespace).reverse.dropWhile Char.isWhitespace).reverse⟩

/-- Python `s[:n]`. -/
def strTake (s : String) (n : Nat) : String := ⟨s.data.take n⟩

/-- Python `s[n:]`. -/
def strDrop (s : String) (n : Nat) : String := ⟨s.data.drop n⟩

/-- Python `s[:-n]`: everything but the last `n` characters. -/
def strDropRight (s : String) (n : Nat) : String :=
  ⟨s.data.take (s.data.length - n)⟩

/-- Python `s.lower()`. -/
def strLower (s : String) : String := ⟨s.data.map Char.toLower⟩

/-- Python `len(s)`. -/
def strLength (s : String) : Nat := s.data.length

/-- Python `int(s)`: optional surrounding whitespace, optional sign,
then a non-empty run of digits; anything else raises `ValueError`. -/
def pyInt (s : String) : Except PyError Int :=
  match (strTrim s).data with
  | [] => .error .valueError
  | '+' :: cs =>
    if cs ≠ [] ∧ cs.all Char.isDigit then .ok (Int.ofNat (digitsVal cs))
    else .error .valueError
  | '-' :: cs =>
    if cs ≠ [] ∧ cs.all Char.isDigit then .ok (-(Int.ofNat (digitsVal cs)))
    else .error .valueError
  | cs =>
    if cs.all Char.isDigit then .ok (Int.ofNat (digitsVal cs))
    else .error .valueError

/-- `utils.try_int`: `int(string)` with the `ValueError` swallowed into
the default `0`. -/
def try_int (s : String) : Int :=
  match pyInt s with
  | .ok n => n
  | .error _ => 0

/-- Python `l[i]` for a non-negative index: `IndexError` when out of range. -/
def pyIndex {α : Type} (l : List α) (i : Nat) : Except PyError α :=
  match l.get? i with
  | some a => .ok a
  | none => .error .indexError

/-- Python `l[-k]` for `k ≥ 1`: `IndexError` when the list is shorter than `k`. -/
def pyIndexNeg {α : Type} (l : List α) (k : Nat) : Except PyError α :=
  if k ≤ l.length then pyIndex l (l.length - k) else .error .indexError

/-- Insertion into a Python `dict` rendered as an association list:
overwrite in place when the key exists, append otherwise. -/
def assocInsert {κ α : Type} [DecidableEq κ] : List (κ × α) → κ → α → List (κ × α)
  | [], k, v => [(k, v)]
  | (k', v') :: rest, k, v =>
    if k' = k then (k, v) :: rest else (k', v') :: assocInsert rest k v

/-- `dict.get`-style lookup in an association list. -/
def assocLookup {κ α : Type} [DecidableEq κ] : List (κ × α) → κ → Option α
  | [], _ => none
  | (k', v') :: rest, k => if k' = k then some v' else assocLookup rest k

/-- `core.LEVELS`: the tuple of known level names. -/
def LEVELS : List String :=
  ["1.1", "1.2", "1.3", "1.4", "1.5", "1.6", "1.7", "1.8", "1.b1",
   "2.1", "2.2", "2.3", "2.4", "2.5", "2.6", "2.7", "2.8", "2.b1",
   "3.1", "3.2", "3.3", "3.4", "3.5", "3.6", "3.7", "3.8", "3.b1",
   "4.1", "4.2", "4.3", "4.4", "4.5", "4.6", "4.7", "4.8", "4.b1",
   "5.1", "5.2", "5.3", "5.4", "5.5", "5.6", "5.7", "5.8", "5.b1", "5.b2",
   "6.1", "6.2", "6.3", "6.4", "6.5", "rumble", "dev", "zecred",
   "DQ1", "DQ3", "DQ4", "DQ5", "DQ7", "DQ8", "DQ9", "DQ10", "DQ11", "DQ12"]

/-- A character of the regex class `[A-Z0-9]`. -/
def isUpperAlnum (c : Char) : Bool :=
  ('A' ≤ c && c ≤ 'Z') || ('0' ≤ c && c ≤ '9')

/-- Consume `n` characters of class `[A-Z0-9]`, returning the rest. -/
def eatSeg : Nat → List Char → Option (List Char)
  | 0, cs => some cs
  | n + 1, c :: cs => if isUpperAlnum c then eatSeg n cs else none
  | _ + 1, [] => none

/-- `core.ID_REGEX.match(s)`: Python `re.match` anchors only at the
start, so this is a prefix match of `U-([A-Z0-9]{4}-){2}[A-Z0-9]{6}` —
trailing characters after the 18-character prefix are not examined. -/
def idRegexMatch (s : String) : Bool :=
  match s.data with
  | 'U' :: '-' :: r0 =>
    match eatSeg 4 r0 with
    | some ('-' :: r1) =>
      match eatSeg 4 r1 with
      | some ('-' :: r2) => (eatSeg 6 r2).isSome
      | _ => false
    | _ => false
  | _ => false

/-- The spec's reading of the identifier shape: *exactly*
`U-AAAA-BBBB-CCCCCC` (segments of 4, 4 and 6 uppercase alphanumerics)
with nothing before or after.  Stated from the spec's words, to be
compared with `idRegexMatch`, which is taken from the source. -/
def spec_id_exact (s : String) : Bool :=
  match strSplitOn s "-" with
  | [u, a, b, c] =>
    u == "U" && strLength a == 4 && a.data.all isUpperAlnum
      && strLength b == 4 && b.data.all isUpperAlnum
      && strLength c == 6 && c.data.all isUpperAlnum
  | _ => false

/-- One guard of `Session._kwarg_check`: `v is not None and not ok(v)`
raises `BadArgument(msg(v))`. -/
def checkOpt (v : Option String) (ok : String → Bool) (msg : String → String) :
    Except PyError Unit :=
  match v with
  | none => .ok ()
  | some s => if ok s then .ok () else .error (.badArgument (msg s))

namespace Session

/-- `Session._kwarg_check` (core.py lines 78-98): four sequential
guards over the optional keyword arguments. -/
def _kwarg_check (mapname playerid mode difficulty : Option String) :
    Except PyError Unit :=
  (checkOpt mapname (fun m => LEVELS.contains m)
      (fun m => "Invalid map: " ++ m)).bind fun _ =>
  (checkOpt playerid idRegexMatch
      (fun p => "Invalid playerid: " ++ p)).bind fun _ =>
  (checkOpt mode (fun mo => mo == "score" || mo == "waves")
      (fun mo => "Invalid mode (must be either \x27score\x27 or \x27waves\x27): " ++ mo)).bind fun _ =>
  checkOpt difficulty (fun d => d == "EASY" || d == "NORMAL" || d == "ENDLESS_I")
      (fun d => "Invalid difficulty (must be one of \x27EASY\x27, \x27NORMAL\x27, \x27ENDLESS_I\x27: " ++ d)

end Session

/-- `badge.Badge`: an in-game pinned badge. -/
structure Badge where
  icon_img : String
  icon_color : String
  overlay_img : String
  overlay_color : String
  deriving Repr, DecidableEq

/-- `score.Score`: a single in-game score.  `rank` and `score` are the
required constructor arguments (already coerced with `int(...)`); the
remaining fields are the keyword-only optionals, absent by default. -/
structure Score where
  method : String
  mapname : String
  mode : String
  difficulty : String
  playerid : String
  rank : Int
  score : Int
  hasPfp : Option Bool := none
  level : Option Int := none
  nickname : Option String := none
  pinnedBadge : Option Badge := none
  position : Option Int := none
  top : Option String := none
  total : Option Int := none
  deriving Repr, DecidableEq

/-- The `payload["player"]` block of a JSON response.  Each field is
`none` when the corresponding dict key is absent (so that reading it
raises `KeyError` / binding it as a required parameter raises
`TypeError`); values are modelled after `int(...)` coercion. -/
structure PlayerBlock where
  total : Option Int := none
  score : Option Int := none
  rank : Option Int := none
  nickname : Option String := none
  top : Option String := none
  deriving Repr, DecidableEq

/-- One entry of the `payload["leaderboards"]` array. -/
structure LBEntry where
  playerid : Option String := none
  nickname : Option String := none
  score : Option Int := none
  deriving Repr, DecidableEq

/-- A decoded JSON payload of the API. -/
structure Payload where
  status : String
  message : String := ""
  player : PlayerBlock := {}
  leaderboards : List LBEntry := []
  deriving Repr, DecidableEq

/-- A transport response: `ok` is true exactly for a 2xx status
(`raise_for_status` succeeds), `payload` is the decoded JSON body. -/
structure HttpResponse where
  ok : Bool
  payload : Payload
  deriving Repr, DecidableEq

/-- A POST request the session would send: the `a=` action of the URL
and the form body (values `none` where Python sends `None`). -/
structure PostRequest where
  action : String
  data : List (String × Option String)
  deriving Repr, DecidableEq

namespace Session

/-- `Session._post` (core.py lines 102-120): a non-2xx transport
response raises `APIError("Something went wrong. Try again later")`;
a 2xx response whose payload status is not `"success"` raises
`APIError` carrying the server message; otherwise the payload is
returned. -/
def _post (r : HttpResponse) : Except PyError Payload :=
  if !r.ok then .error (.apiError "Something went wrong. Try again later")
  else if r.payload.status = "success" then .ok r.payload
  else .error (.apiError ("Error response from server: " ++ r.payload.message))

end Session

/-- `Score.from_payload` (score.py lines 80-93): `score = payload["player"]`
then `cls(method, mapname, mode, difficulty, playerid, **score)`.
The required parameters `rank` and `score` must be bound by the dict,
else the call raises `TypeError`. -/
def Score.from_payload (method mapname mode difficulty playerid : String)
    (payload : Payload) : Except PyError Score :=
  match payload.player.rank with
  | none => .error (.typeError "__init__() missing required argument: rank")
  | some r =>
    match payload.player.score with
    | none => .error (.typeError "__init__() missing required argument: score")
    | some s =>
      .ok { method := method, mapname := mapname, mode := mode,
            difficulty := difficulty, playerid := playerid, rank := r,
            score := s, nickname := payload.player.nickname,
            top := payload.player.top, total := payload.player.total }

/-- `leaderboard.Leaderboard`: metadata, the raw payload, and the
ordered score list. -/
structure Leaderboard where
  method : String
  mapname : String
  mode : String
  difficulty : String
  total : Int
  raw : Payload
  date : Option String := none
  season : Option Int := none
  player : Option Score := none
  scores : List Score := []
  deriving Repr, DecidableEq

/-- The per-entry loop of `Leaderboard.from_payload` (lines 106-108):
each entry is turned into `Score(method, mapname, mode, difficulty,
rank=rank, **score)` with `rank` counting from `start`; `playerid` and
`score` must come from the entry dict. -/
def rowsToScores (method mapname mode difficulty : String) :
    Nat → List LBEntry → Except PyError (List Score)
  | _, [] => .ok []
  | rank, e :: rest =>
    match e.playerid with
    | none => .error (.typeError "__init__() missing required argument: playerid")
    | some pid =>
      match e.score with
      | none => .error (.typeError "__init__() missing required argument: score")
      | some s =>
        match rowsToScores method mapname mode difficulty (rank + 1) rest with
        | .error err => .error err
        | .ok tail =>
          .ok ({ method := method, mapname := mapname, mode := mode,
                 difficulty := difficulty, playerid := pid,
                 rank := (rank : Int), score := s,
                 nickname := e.nickname } :: tail)

/-- `Leaderboard.from_payload` (leaderboard.py lines 83-109).  The
requesting player's own score is attached only when a `playerid` was
given and `player["score"] and player["rank"] and total` are all
truthy (Python short-circuits, so `rank` is only read when `score` is
truthy); the score entries are ranked `1..N` by `enumerate`. -/
def Leaderboard.from_payload (method mapname mode difficulty : String)
    (playerid : Option String) (payload : Payload)
    (date : Option String) (season : Option Int) :
    Except PyError Leaderboard :=
  match payload.player.total with
  | none => .error .keyError
  | some total =>
    let playerScore : Except PyError (Option Score) :=
      match playerid with
      | none => .ok none
      | some pid =>
        match payload.player.score with
        | none => .error .keyError
        | some s =>
          if s = 0 then .ok none
          else
            match payload.player.rank with
            | none => .error .keyError
            | some r =>
              if r = 0 ∨ total = 0 then .ok none
              else .ok (some { method := method, mapname := mapname,
                               mode := mode, difficulty := difficulty,
                               playerid := pid, rank := r, score := s,
                               nickname := payload.player.nickname,
                               top := payload.player.top,
                               total := some total })
    match playerScore with
    | .error e => .error e
    | .ok ps =>
      match rowsToScores method mapname mode difficulty 1 payload.leaderboards with
      | .error e => .error e
      | .ok scores =>
        .ok { method := method, mapname := mapname, mode := mode,
              difficulty := difficulty, total := total, raw := payload,
              date := date, season := season, player := ps, scores := scores }

/-- `Leaderboard.__getitem__` with a slice `[start:stop]`
(leaderboard.py lines 204-215): a new `Leaderboard` sharing every
metadata field (and the raw payload) whose scores are the selected
sub-list.  `drop`/`take` is Python slice semantics for non-negative
bounds, clamping included. -/
def Leaderboard.getitem_slice (lb : Leaderboard) (start stop : Nat) : Leaderboard :=
  { method := lb.method, mapname := lb.mapname, mode := lb.mode,
    difficulty := lb.difficulty, total := lb.total, raw := lb.raw,
    date := lb.date, season := lb.season, player := lb.player,
    scores := (lb.scores.drop start).take (stop - start) }

namespace Session

/-- The form body common to the leaderboard POSTs (core.py). -/
def lbData (difficulty : String) (playerid : Option String)
    (mapname mode : String) : List (String × Option String) :=
  [("gamemode", some "BASIC_LEVELS"), ("difficulty", some difficulty),
   ("playerid", playerid), ("mapname", some mapname), ("mode", some mode)]

/-- `Session.leaderboards_rank` (core.py lines 123-149).  The result is
paired with the list of POST requests actually issued, so that
"no network call before validation" is visible in the embedding. -/
def leaderboards_rank (mapname playerid mode difficulty : String)
    (resp : HttpResponse) : Except PyError Score × List PostRequest :=
  match _kwarg_check (some mapname) (some playerid) (some mode) (some difficulty) with
  | .error e => (.error e, [])
  | .ok _ =>
    let req : PostRequest :=
      ⟨"getLeaderboardsRank", lbData difficulty (some playerid) mapname mode⟩
    match _post resp with
    | .error e => (.error e, [req])
    | .ok payload =>
      (Score.from_payload "leaderboards_rank" mapname mode difficulty playerid payload,
       [req])

/-- The mutable state `Session.leaderboards` touches: the
`_Leaderboards` dict and the `_cooldown["Leaderboards"]` dict. -/
structure LBState where
  Leaderboards : List (String × Leaderboard)
  cooldown : List (String × Nat)
  deriving Repr

/-- Python truthiness of `not playerid` for an `Optional[str]`. -/
def pyFalsy : Option String → Bool
  | none => true
  | some s => s == ""

/-- `Session.leaderboards` (core.py lines 151-186).  `now` stands for
`time.time()`.  The anonymous result is served from `_Leaderboards`
while the cooldown is fresh; otherwise one POST is issued and the
result is stored back only when `lb.player is None`. -/
def leaderboards (st : LBState) (now : Nat) (mapname : String)
    (playerid : Option String) (mode difficulty : String)
    (resp : HttpResponse) :
    Except PyError (Leaderboard × LBState) × List PostRequest :=
  match _kwarg_check (some mapname) playerid (some mode) (some difficulty) with
  | .error e => (.error e, [])
  | .ok _ =>
    let key := difficulty ++ mode ++ mapname
    if pyFalsy playerid && decide (now < (assocLookup st.cooldown key).getD 0 + 60) then
      match assocLookup st.Leaderboards key with
      | some lb => (.ok (lb, st), [])
      | none => (.error .keyError, [])
    else
      let req : PostRequest := ⟨"getLeaderboards", lbData difficulty playerid mapname mode⟩
      match _post resp with
      | .error e => (.error e, [req])
      | .ok payload =>
        match Leaderboard.from_payload "leaderboards" mapname mode difficulty
            playerid payload none none with
        | .error e => (.error e, [req])
        | .ok lb =>
          match lb.player with
          | none =>
            (.ok (lb, { Leaderboards := assocInsert st.Leaderboards key lb,
                        cooldown := assocInsert st.cooldown key now }), [req])
          | some _ => (.ok (lb, st), [req])

/-- Leap year rule used by Python's `datetime`. -/
def isLeap (y : Nat) : Bool :=
  y % 4 == 0 && (y % 100 != 0 || y % 400 == 0)

/-- Days in a month of the proleptic Gregorian calendar. -/
def daysInMonth (y m : Nat) : Nat :=
  if m == 2 then (if isLeap y then 29 else 28)
  else if m == 4 || m == 6 || m == 9 || m == 11 then 30 else 31

/-- A `%m`/`%d` field of `strptime`: one or two digits, value at least 1. -/
def twoDigitField (s : String) : Option Nat :=
  if 1 ≤ strLength s && strLength s ≤ 2 && s.data.all Char.isDigit then
    if 1 ≤ digitsVal s.data then some (digitsVal s.data) else none
  else none

/-- A `%Y` field of `strptime`: exactly four digits, year at least 1. -/
def yearField (s : String) : Option Nat :=
  if strLength s == 4 && s.data.all Char.isDigit then
    if 1 ≤ digitsVal s.data then some (digitsVal s.data) else none
  else none

/-- `datetime.datetime.strptime(s, "%Y-%m-%d")` succeeds: four-digit
year, one-or-two-digit month `1..12`, day valid for that month, and
the whole string consumed. -/
def strptimeYMDOk (s : String) : Bool :=
  match strSplitOn s "-" with
  | [ys, ms, ds] =>
    match yearField ys, twoDigitField ms, twoDigitField ds with
    | some y, some m, some d => m ≤ 12 && d ≤ daysInMonth y m
    | _, _, _ => false
  | _ => false

/-- A `date` argument of `Session.daily_quest_leaderboards`: either a
`datetime.datetime` (already carrying a calendar date) or a string. -/
inductive DateArg where
  | dt (y m d : Nat)
  | str (s : String)
  deriving Repr, DecidableEq

/-- Zero-padded two-digit rendering (`strftime` `%m`/`%d`). -/
def pad2 (n : Nat) : String :=
  if n < 10 then "0" ++ toString n else toString n

/-- Zero-padded four-digit rendering (`strftime` `%Y`). -/
def pad4 (n : Nat) : String :=
  String.mk (List.replicate (4 - strLength (toString n)) '0') ++ toString n

/-- `datetime.strftime("%Y-%m-%d")`. -/
def strftimeYMD (y m d : Nat) : String :=
  pad4 y ++ "-" ++ pad2 m ++ "-" ++ pad2 d

/-- The date normalization prefix of `Session.daily_quest_leaderboards`
(core.py lines 251-264).  `todayUtc` stands for
`datetime.datetime.utcnow().strftime("%Y-%m-%d")`.  Returns the date
string actually used and whether the invalid-date warning was logged;
no branch raises. -/
def daily_quest_date (date : Option DateArg) (warning : Bool)
    (todayUtc : String) : String × Bool :=
  match date with
  | none => (todayUtc, false)
  | some (.dt y m d) => (strftimeYMD y m d, false)
  | some (.str s) =>
    if strptimeYMDOk s then (s, false) else (todayUtc, warning)

end Session

/-- The cache table of `utils.async_expiring_cache`: each key maps to
the task handle returned for it (tasks are numbered in creation
order so distinct invocations are distinguishable) and the
`time.time()` at which it was stored. -/
structure CacheState (κ : Type) where
  entries : List (κ × Nat × Nat)
  nextTask : Nat
  deriving Repr

/-- The outcome of one call of the wrapper: the task handle handed
back, whether the underlying coroutine function was invoked, and the
updated cache. -/
structure CacheCall (κ : Type) where
  task : Nat
  invoked : Bool
  state : CacheState κ
  deriving Repr

/-- `utils.async_expiring_cache(seconds)`'s `wrapper` (utils.py lines
31-41): a fresh entry for the key is returned as is; an absent or
expired entry causes one invocation of the wrapped function, whose
task is stored under the key with the current time. -/
def cacheCall {κ : Type} [DecidableEq κ] (seconds : Nat) (st : CacheState κ)
    (now : Nat) (key : κ) : CacheCall κ :=
  match assocLookup st.entries key with
  | some (task, ts) =>
    if now < ts + seconds then ⟨task, false, st⟩
    else ⟨st.nextTask, true,
          ⟨assocInsert st.entries key (st.nextTask, now), st.nextTask + 1⟩⟩
  | none =>
    ⟨st.nextTask, true,
     ⟨assocInsert st.entries key (st.nextTask, now), st.nextTask + 1⟩⟩

/-- Value stored under `t["total_top"]`: the code puts the int `0` in
one branch and a string in the others. -/
inductive TopVal where
  | int (n : Int)
  | str (s : String)
  deriving Repr, DecidableEq

/-- The three Python values `Player._daily_quest` / `_skill_point` can
hold: the `MISSING` sentinel of utils.py, `None`, or a `Score`. -/
inductive PyScoreField where
  | missing
  | none
  | val (s : Score)
  deriving Repr, DecidableEq

/-- Python truthiness: `_MissingSentinel.__bool__` is `False`, `None`
is falsy, a `Score` object is truthy. -/
def PyScoreField.truthy : PyScoreField → Bool
  | .missing => false
  | .none => false
  | .val _ => true

/-- Forget the sentinel (only valid after a fetch). -/
def PyScoreField.toOption : PyScoreField → Option Score
  | .missing => Option.none
  | .none => Option.none
  | .val s => Option.some s

/-- `player.Player`: the attributes set by `Player.__init__`, with
`_daily_quest` and `_skill_point` initialized to `MISSING`. -/
structure Player where
  beta : Bool
  playerid : String
  nickname : String
  levels : List (String × Score)
  level : Int
  xp : Int
  xp_max : Int
  season_level : Int
  season_xp : Int
  season_xp_max : Int
  badges : List (String × String × String)
  total_score : Int
  total_rank : Int
  total_top : TopVal
  replays : Int
  issues : Int
  created_at : String
  daily_quest : PyScoreField := .missing
  skill_point : PyScoreField := .missing
  deriving Repr, DecidableEq

/-- The keyword dict `t` built by `Session._parse_player`, as a record
over the keys that function can set.  `beta` is `Option Bool` because
`Player.__init__` requires it but the parser may (and in fact never
does) supply it. -/
structure PlayerKwargs where
  beta : Option Bool
  playerid : String
  nickname : String
  total_score : Int
  total_rank : Int
  total_top : TopVal
  level : Int
  xp : Int
  xp_max : Int
  season_xp : Int
  season_xp_max : Int
  season_level : Int
  levels : List (String × Score)
  badges : List (String × String × String)
  replays : Int
  issues : Int
  created_at : String
  deriving Repr, DecidableEq

/-- `Player(**t)` (player.py lines 47-86): keyword binding of the dict
against the signature.  Every parameter except `beta` is always
present in `t`; the call raises `TypeError` exactly when `beta` is
unbound. -/
def Player.from_kwargs (t : PlayerKwargs) : Except PyError Player :=
  match t.beta with
  | none =>
    .error (.typeError
      "__init__() missing 1 required positional argument: \x27beta\x27")
  | some b =>
    .ok { beta := b, playerid := t.playerid, nickname := t.nickname,
          levels := t.levels, level := t.level, xp := t.xp,
          xp_max := t.xp_max, season_level := t.season_level,
          season_xp := t.season_xp, season_xp_max := t.season_xp_max,
          badges := t.badges, total_score := t.total_score,
          total_rank := t.total_rank, total_top := t.total_top,
          replays := t.replays, issues := t.issues,
          created_at := t.created_at }

/-- The totals box `div[width="522"][height="140"][align="center"]` of
a profile page: the texts of its `label` children. -/
structure TotalsDiv where
  labels : List String
  deriving Repr, DecidableEq

/-- The XP bar `div[width="330"][height="64"]`: the text of its first
`label`, if any. -/
structure XpDiv where
  label : Option String
  deriving Repr, DecidableEq

/-- The inner season-level box `div[x="466"][width="64"][height="64"]`:
its `data` attribute, `none` when the attribute is missing. -/
structure SeasonLevelDiv where
  data : Option String
  deriving Repr, DecidableEq

/-- The season-XP box `div[width="530"][align="center"][height="64"]
[pad-bottom="10"]`. -/
structure SeasonDiv where
  label : Option String
  level_div : Option SeasonLevelDiv
  deriving Repr, DecidableEq

/-- One per-level row `div[width="800"][height="40"]`: the texts of its
`label` children and whether a `label[i18n="not_ranked"]` is present. -/
structure LevelRow where
  labels : List String
  not_ranked : Bool
  deriving Repr, DecidableEq

/-- One `img` tag inside a badge box: its `src` and its optional
`color` attribute. -/
structure Img where
  src : String
  color : Option String
  deriving Repr, DecidableEq

/-- One badge box `div[width="80"][height="80"]`. -/
structure BadgeDiv where
  imgs : List Img
  deriving Repr, DecidableEq

/-- A parsed profile page, as the results of the selector queries
`Session._parse_player` performs against the soup. -/
structure ProfileDoc where
  nickname_label : Option String
  totals_div : Option TotalsDiv
  comments : List String
  xp_div : Option XpDiv
  season_div : Option SeasonDiv
  level_rows : List LevelRow
  badge_divs : List BadgeDiv
  footer_tables : List (List (Option String))
  deriving Repr, DecidableEq

/-- Python `pat in x` for a non-empty pattern. -/
def containsSub (x pat : String) : Bool :=
  (strSplitOn x pat).length > 1

namespace Session

/-- The totals branch (core.py lines 333-343). -/
def parse_totals : Option TotalsDiv → Int × Int × TopVal
  | Option.none => (0, 0, .int 0)
  | Option.some td =>
    let ls := td.labels
    if ls.length ≥ 4 then
      (try_int (strReplace (ls.getD 1 "") "," ""),
       try_int (strReplace (ls.getD 2 "") "," ""),
       .str (strReplace (ls.getD 3 "") "- Top " ""))
    else (0, 0, .str "0%")

/-- The comment scan for the XP level (core.py lines 344-350): the
first comment containing `"Level:"` is parsed as
`int(x.split(">")[3].split("<")[0])`; the for-else default is 1. -/
def find_level : List String → Except PyError Int
  | [] => .ok 1
  | x :: rest =>
    if containsSub x "Level:" then
      match (strSplitOn x ">").get? 3 with
      | Option.none => .error .indexError
      | Option.some p => pyInt ((strSplitOn p "<").headD "")
    else find_level rest

/-- The XP bar (core.py lines 351-356): a missing box aborts with
`BadArgument("Invalid playerid: ...")`; otherwise the label text is
split on `" / "` and both halves go through `int(...)`. -/
def parse_xp (playerid : String) : Option XpDiv → Except PyError (Int × Int)
  | Option.none => .error (.badArgument ("Invalid playerid: " ++ playerid))
  | Option.some xd =>
    match xd.label with
    | Option.none => .error .attributeError
    | Option.some txt =>
      let parts := strSplitOn txt " / "
      match pyInt (parts.headD "") with
      | .error e => .error e
      | .ok xp =>
        match parts.get? 1 with
        | Option.none => .error .indexError
        | Option.some s =>
          match pyInt s with
          | .error e => .error e
          | .ok xpMax => .ok (xp, xpMax)

/-- The season-XP box (core.py lines 357-374): absent box defaults to
`(season_xp, season_xp_max, season_level) = (0, 500, 1)`; otherwise
the borders label is split on `" / "` and the inner level box, when
present, contributes `int(data.split(":")[1])`. -/
def parse_season : Option SeasonDiv → Except PyError (Int × Int × Int)
  | Option.none => .ok (0, 500, 1)
  | Option.some sd =>
    match sd.label with
    | Option.none => .error .attributeError
    | Option.some txt =>
      let parts := strSplitOn txt " / "
      match pyInt (parts.headD "") with
      | .error e => .error e
      | .ok sxp =>
        match parts.get? 1 with
        | Option.none => .error .indexError
        | Option.some s =>
          match pyInt s with
          | .error e => .error e
          | .ok sxpMax =>
            match sd.level_div with
            | Option.none => .ok (sxp, sxpMax, 1)
            | Option.some ld =>
              match ld.data with
              | Option.none => .error .keyError
              | Option.some dat =>
                match (strSplitOn dat ":").get? 1 with
                | Option.none => .error .indexError
                | Option.some p =>
                  match pyInt p with
                  | .error e => .error e
                  | .ok slevel => .ok (sxp, sxpMax, slevel)

/-- One per-level row (core.py lines 377-399): a ranked row parses
rank/score/total from `label` texts; a `not_ranked` row synthesizes
`rank, score, total, top = 0, 0, 0, "-%"`.  Either way the row maps
its level name to a `Score` carrying the page-level `level` and
`nickname`. -/
def row_score (playerid nickname : String) (lvl : Int) (row : LevelRow) :
    Except PyError (String × Score) :=
  match pyIndex row.labels 0 with
  | .error e => .error e
  | .ok levelName =>
    if !row.not_ranked then
      match pyIndex row.labels 2 with
      | .error e => .error e
      | .ok s2 =>
        match pyInt (strReplace s2 "," "") with
        | .error e => .error e
        | .ok rank =>
          match pyIndex row.labels 1 with
          | .error e => .error e
          | .ok s1 =>
            match pyInt (strReplace s1 "," "") with
            | .error e => .error e
            | .ok score =>
              match pyIndex row.labels 3 with
              | .error e => .error e
              | .ok s3 =>
                match pyInt (strReplace (strReplace s3 "/ " "") "," "") with
                | .error e => .error e
                | .ok total =>
                  match pyIndexNeg row.labels 1 with
                  | .error e => .error e
                  | .ok top =>
                    .ok (levelName,
                         { method := "player", mapname := levelName,
                           mode := "score", difficulty := "NORMAL",
                           playerid := playerid, rank := rank, score := score,
                           top := some top, total := some total,
                           level := some lvl, nickname := some nickname })
    else
      .ok (levelName,
           { method := "player", mapname := levelName, mode := "score",
             difficulty := "NORMAL", playerid := playerid, rank := 0,
             score := 0, top := some "-%", total := some 0,
             level := some lvl, nickname := some nickname })

/-- The per-level loop filling `t["levels"]` (dict insertion order,
later rows overwriting equal level names). -/
def build_levels (playerid nickname : String) (lvl : Int)
    (acc : List (String × Score)) :
    List LevelRow → Except PyError (List (String × Score))
  | [] => .ok acc
  | r :: rest =>
    match row_score playerid nickname lvl r with
    | .error e => .error e
    | .ok (name, sc) => build_levels playerid nickname lvl (assocInsert acc name sc) rest

/-- The badge-type allow-list `icos` (core.py lines 401-410). -/
def icos_list (level : Int) : List String :=
  ["daily-game", "invited-players", "killed-enemies", "mined-resources",
   "skillful", "of-merit", "beta-tester-season-2",
   "high-leveled-" ++ toString (if level < 100 then Int.fdiv level 10 else 10)]

/-- The recognized rarity tokens (core.py lines 413-422). -/
def rarities : List String :=
  ["not-received", "common", "rare", "very-rare", "epic", "legendary",
   "supreme", "artifact"]

/-- One badge box (core.py lines 411-434): rarity from the first
image's `src` after `"bg-"`, badge type from the second image's `src`
after `"icon-"`, colour from the last image's `color` attribute;
unrecognized tokens are dropped. -/
def badge_entry (icos : List String) (acc : List (String × String × String))
    (x : BadgeDiv) : Except PyError (List (String × String × String)) :=
  match pyIndex x.imgs 0 with
  | .error e => .error e
  | .ok img0 =>
    match (strSplitOn img0.src "bg-").get? 1 with
    | Option.none => .error .indexError
    | Option.some rar =>
      if rarities.contains rar then
        match pyIndex x.imgs 1 with
        | .error e => .error e
        | .ok img1 =>
          match (strSplitOn img1.src "icon-").get? 1 with
          | Option.none => .error .indexError
          | Option.some ico =>
            if (icos ++ ["youtube-author-" ++ rar,
                         "season-level-" ++ rar ++ "-2"]).contains ico
                || strTake ico 8 == "season-1" then
              match pyIndexNeg x.imgs 1 with
              | .error e => .error e
              | .ok last =>
                match last.color with
                | Option.none => .error .keyError
                | Option.some col => .ok (assocInsert acc ico (rar, col))
            else .ok acc
      else .ok acc

/-- The badge loop filling `t["badges"]`. -/
def build_badges (icos : List String) (acc : List (String × String × String)) :
    List BadgeDiv → Except PyError (List (String × String × String))
  | [] => .ok acc
  | x :: rest =>
    match badge_entry icos acc x with
    | .error e => .error e
    | .ok acc2 => build_badges icos acc2 rest

/-- `strptime(s, "%d %B %Y").strftime("%Y-%m-%d")` (core.py lines
442-444): day field, full English month name (case-insensitive),
four-digit year. -/
def month_names : List String :=
  ["january", "february", "march", "april", "may", "june", "july",
   "august", "september", "october", "november", "december"]

/-- Index (1-based) of a month name, matched case-insensitively. -/
def month_index (s : String) : Option Nat :=
  match month_names.findIdx? (fun n => n == strLower s) with
  | Option.some i => Option.some (i + 1)
  | Option.none => Option.none

/-- `strptime(s, "%d %B %Y")` followed by `strftime("%Y-%m-%d")`. -/
def strptime_dBY (s : String) : Except PyError String :=
  match strSplitOn s " " with
  | [ds, ms, ys] =>
    match twoDigitField ds, month_index ms, yearField ys with
    | Option.some d, Option.some m, Option.some y =>
      if d ≤ daysInMonth y m then .ok (strftimeYMD y m d)
      else .error .valueError
    | _, _, _ => .error .valueError
  | _ => .error .valueError

/-- The footer statistics table (core.py lines 435-444): replay count
from the third-from-last label, issue count from the second-from-last,
creation date from the last. -/
def parse_footer (tables : List (List (Option String))) :
    Except PyError (Int × Int × String) :=
  match pyIndexNeg tables 1 with
  | .error e => .error e
  | .ok labels =>
    match pyIndexNeg labels 3 with
    | .error e => .error e
    | .ok Option.none => .error .attributeError
    | .ok (Option.some s3) =>
      let replaysParts := strSplitOn s3 " "
      let replaysRes : Except PyError Int :=
        if replaysParts.length ≠ 4 then .ok 0
        else pyInt (replaysParts.getD 3 "")
      match replaysRes with
      | .error e => .error e
      | .ok replays =>
        match pyIndexNeg labels 2 with
        | .error e => .error e
        | .ok Option.none => .error .attributeError
        | .ok (Option.some s2) =>
          let issuesParts := strSplitOn s2 " "
          let issuesRes : Except PyError Int :=
            if issuesParts.length ≠ 6 then .ok 0
            else pyInt (strDrop (issuesParts.getD 0 "") 3)
          match issuesRes with
          | .error e => .error e
          | .ok issues =>
            match pyIndexNeg labels 1 with
            | .error e => .error e
            | .ok Option.none => .error .attributeError
            | .ok (Option.some s1) =>
              match (strSplitOn s1 "ned ").get? 1 with
              | Option.none => .error .indexError
              | Option.some after =>
                let sp := strSplitOn after " "
                let sp0 := sp.headD ""
                let day :=
                  if strLength (strTake sp0 2) == 2 then strDropRight sp0 2
                  else "0" ++ strTake sp0 2
                match pyIndexNeg sp 2 with
                | .error e => .error e
                | .ok month =>
                  match pyIndexNeg sp 1 with
                  | .error e => .error e
                  | .ok year =>
                    match strptime_dBY (day ++ " " ++ month ++ " " ++ year) with
                    | .error e => .error e
                    | .ok created => .ok (replays, issues, created)

/-- The dict-building body of `Session._parse_player` (core.py lines
328-444): everything up to the final `Player(**t)` call.  Note that no
branch ever sets a `beta` key. -/
def _parse_player_dict (doc : ProfileDoc) (playerid : String) :
    Except PyError PlayerKwargs :=
  match doc.nickname_label with
  | Option.none => .error .attributeError
  | Option.some nickname =>
    let tot := parse_totals doc.totals_div
    match find_level doc.comments with
    | .error e => .error e
    | .ok level =>
      match parse_xp playerid doc.xp_div with
      | .error e => .error e
      | .ok (xp, xp_max) =>
        match parse_season doc.season_div with
        | .error e => .error e
        | .ok (season_xp, season_xp_max, season_level) =>
          match build_levels playerid nickname level [] (doc.level_rows.drop 1) with
          | .error e => .error e
          | .ok levels =>
            match build_badges (icos_list level) [] doc.badge_divs with
            | .error e => .error e
            | .ok badges =>
              match parse_footer doc.footer_tables with
              | .error e => .error e
              | .ok (replays, issues, created_at) =>
                .ok { beta := Option.none, playerid := playerid,
                      nickname := nickname, total_score := tot.1,
                      total_rank := tot.2.1, total_top := tot.2.2,
                      level := level, xp := xp, xp_max := xp_max,
                      season_xp := season_xp, season_xp_max := season_xp_max,
                      season_level := season_level, levels := levels,
                      badges := badges, replays := replays, issues := issues,
                      created_at := created_at }

/-- `Session._parse_player` (core.py lines 328-446): build the dict,
then call `Player(**t)`. -/
def _parse_player (doc : ProfileDoc) (playerid : String) :
    Except PyError Player :=
  match _parse_player_dict doc playerid with
  | .error e => .error e
  | .ok t => Player.from_kwargs t

/-- `Session.player` (core.py lines 448-467): validate the id, issue a
GET, and run `_parse_player` inside a `try` whose `except Exception`
re-raises `BadArgument("Invalid playerid: ...")`. -/
def player (playerid : String) (httpOk : Bool) (doc : ProfileDoc) :
    Except PyError Player :=
  match _kwarg_check Option.none (Option.some playerid) Option.none Option.none with
  | .error e => .error e
  | .ok _ =>
    if !httpOk then .error (.apiError "Bad Gateway.")
    else
      match _parse_player doc playerid with
      | .ok p => .ok p
      | .error _ => .error (.badArgument ("Invalid playerid: " ++ playerid))

end Session

/-- The `Player.daily_quest` property (player.py lines 171-179):
raises `InfinitodeError` while the field still holds `MISSING`,
otherwise returns the stored value (`None` or the `Score`). -/
def Player.daily_quest_property (p : Player) : Except PyError (Option Score) :=
  match p.daily_quest with
  | .missing =>
    .error (.infinitodeError
      "This score has not been fetched yet. Use ~.fetch_daily_quest first.")
  | .none => .ok Option.none
  | .val s => .ok (Option.some s)

/-- The keyword parameters `Session.daily_quest_leaderboards` accepts
(core.py lines 239-244). -/
def daily_quest_leaderboards_params : List String :=
  ["date", "playerid", "warning"]

/-- The call `session.daily_quest_leaderboards(playerid=..., beta=...)`
made by `Player.fetch_daily_quest` (player.py lines 228-230): Python
keyword binding raises `TypeError` when a keyword matches no
parameter.  `lbPlayer` stands for the `lb.player` the call would
produce if it were accepted. -/
def sessionDailyQuestBetaCall (lbPlayer : Option Score) :
    Except PyError (Option Score) :=
  if (["playerid", "beta"].all (fun k => daily_quest_leaderboards_params.contains k)) then
    .ok lbPlayer
  else
    .error (.typeError
      "daily_quest_leaderboards() got an unexpected keyword argument \x27beta\x27")

/-- `Player.fetch_daily_quest` (player.py lines 209-233).  `hasSession`
is whether a `Session` argument was supplied; `lbPlayer` abstracts the
leaderboard's player score the network call would return. -/
def Player.fetch_daily_quest (p : Player) (hasSession : Bool)
    (lbPlayer : Option Score) : Except PyError (Option Score × Player) :=
  if p.daily_quest.truthy then .ok (p.daily_quest.toOption, p)
  else if !hasSession then
    match p.daily_quest with
    | .none => .ok (Option.none, p)
    | _ =>
      .error (.infinitodeError
        "You need to provide a Session to fetch the daily quest score.")
  else
    match sessionDailyQuestBetaCall lbPlayer with
    | .error e => .error e
    | .ok r =>
      .ok (r, { p with daily_quest := match r with
                       | Option.none => .none
                       | Option.some s => .val s })

/-! ## General lemmas about the embedded validation and cache helpers -/

theorem checkOpt_eq (v : Option String) (ok : String → Bool) (msg : String → String) :
    checkOpt v ok msg =
      if v.all ok = true then .ok () else .error (.badArgument (msg (v.getD ""))) := by
  cases v <;> simp [checkOpt, Option.all]

theorem kwarg_check_ok_iff (m p mo d : Option String) :
    Session._kwarg_check m p mo d = .ok () ↔
      (m.all (fun x => LEVELS.contains x) = true ∧ p.all idRegexMatch = true ∧
       mo.all (fun x => x == "score" || x == "waves") = true ∧
       d.all (fun x => x == "EASY" || x == "NORMAL" || x == "ENDLESS_I") = true) := by
  simp only [Session._kwarg_check, checkOpt_eq]
  split_ifs <;> simp_all [Except.bind]

theorem kwarg_check_ok_or_bad (m p mo d : Option String) :
    Session._kwarg_check m p mo d = .ok () ∨
      ∃ msg, Session._kwarg_check m p mo d = .error (.badArgument msg) := by
  simp only [Session._kwarg_check, checkOpt_eq]
  split_ifs <;> simp [Except.bind]

theorem assocLookup_insert_self {κ α : Type} [DecidableEq κ]
    (es : List (κ × α)) (k : κ) (v : α) :
    assocLookup (assocInsert es k v) k = some v := by
  induction es with
  | nil => simp [assocInsert, assocLookup]
  | cons hd tl ih =>
    by_cases h : hd.1 = k <;> simp [assocInsert, assocLookup, h, ih]

theorem assocLookup_insert_ne {κ α : Type} [DecidableEq κ]
    (es : List (κ × α)) (k k2 : κ) (v : α) (h : k2 ≠ k) :
    assocLookup (assocInsert es k v) k2 = assocLookup es k2 := by
  induction es with
  | nil => simp [assocInsert, assocLookup, Ne.symm h]
  | cons hd tl ih =>
    by_cases h2 : hd.1 = k
    · simp [assocInsert, assocLookup, h2, Ne.symm h]
    · simp [assocInsert, assocLookup, h2, ih]

/-! ## Concrete inputs used by witnesses and counterexamples -/

/-- A transport failure (non-2xx). -/
def respDown : HttpResponse := ⟨false, { status := "success" }⟩

/-- A 2xx response whose payload reports a server-side failure. -/
def respFail : HttpResponse := ⟨true, { status := "error", message := "boom" }⟩

/-- Whether a `_post` outcome is a raised `APIError`. -/
def raisesAPIError : Except PyError Payload → Bool
  | .error (.apiError _) => true
  | _ => false

/-! ## Claims -/

/-- C1, counterexample: the claim says a non-2xx transport response
raises an `ApiUnavailable` distinct from the `ApiError` used for
server-reported failures.  In the code (errors.py defines no such
class) both failure kinds raise the same `APIError` class: here a
non-2xx response and a failing 2xx payload both produce `.apiError`. -/
theorem c1_counterexample :
    raisesAPIError (Session._post respDown) = true ∧
    raisesAPIError (Session._post respFail) = true ∧
    respDown.ok = false ∧ respFail.ok = true ∧ respFail.payload.status ≠ "success" :=
  ⟨rfl, rfl, rfl, rfl, by decide⟩

/-- C1, amended: a non-2xx transport response raises `APIError` with
the fixed message "Something went wrong. Try again later"; a 2xx
response whose payload status is not "success" raises `APIError`
carrying the server-supplied message; a successful payload is
returned.  The two failure kinds share the `APIError` class and are
distinguishable only by message. -/
theorem c1_post_failures (r : HttpResponse) :
    (r.ok = false →
      Session._post r = .error (.apiError "Something went wrong. Try again later")) ∧
    (r.ok = true → r.payload.status ≠ "success" →
      Session._post r =
        .error (.apiError ("Error response from server: " ++ r.payload.message))) ∧
    (r.ok = true → r.payload.status = "success" → Session._post r = .ok r.payload) :=
  ⟨fun h => by simp [Session._post, h],
   fun h h2 => by simp [Session._post, h, h2],
   fun h h2 => by simp [Session._post, h, h2]⟩

theorem c1_witness :
    Session._post respDown = .error (.apiError "Something went wrong. Try again later") ∧
    Session._post respFail = .error (.apiError ("Error response from server: " ++ "boom")) :=
  ⟨(c1_post_failures respDown).1 rfl, (c1_post_failures respFail).2.1 rfl (by decide)⟩

/-- C4, amended: player-identifier validation accepts exactly the
strings whose *prefix* matches `U-AAAA-BBBB-CCCCCC` (4, 4 and 6
uppercase alphanumerics) — `re.match` does not anchor the end, so
trailing characters are allowed — and rejects every other string with
`BadArgument("Invalid playerid: ...")`. -/
theorem c4_id_validation (s : String) :
    (Session._kwarg_check none (some s) none none = .ok () ↔ idRegexMatch s = true) ∧
    (idRegexMatch s = false →
      Session._kwarg_check none (some s) none none =
        .error (.badArgument ("Invalid playerid: " ++ s))) := by
  constructor
  · rw [kwarg_check_ok_iff]; simp [Option.all]
  · intro h
    simp [Session._kwarg_check, checkOpt, Except.bind, h]

theorem c4_witness :
    idRegexMatch "u-aaaa-bbbb-cccccc" = false ∧
    Session._kwarg_check none (some "u-aaaa-bbbb-cccccc") none none =
      .error (.badArgument ("Invalid playerid: " ++ "u-aaaa-bbbb-cccccc")) :=
  ⟨rfl, (c4_id_validation "u-aaaa-bbbb-cccccc").2 rfl⟩

/-- C4, counterexample: `"U-AAAA-BBBB-CCCCCC!"` is not of the exact
shape the claim describes (extra trailing character), yet validation
accepts it, because `re.match` only matches a prefix. -/
theorem c4_counterexample :
    spec_id_exact "U-AAAA-BBBB-CCCCCC!" = false ∧
    idRegexMatch "U-AAAA-BBBB-CCCCCC!" = true ∧
    Session._kwarg_check none (some "U-AAAA-BBBB-CCCCCC!") none none = .ok () :=
  ⟨rfl, rfl, rfl⟩

/-- C9: date normalization of the daily-quest operation never raises:
a string that does not parse as `%Y-%m-%d` falls back to the current
UTC date, emitting the warning signal exactly when the warning flag is
set; a parseable string is used as given with no warning; a datetime
is formatted and used; a missing date uses the current UTC date. -/
theorem c9_date_normalization (s today : String) (warning : Bool) (y m d : Nat) :
    (Session.strptimeYMDOk s = false →
      Session.daily_quest_date (some (.str s)) warning today = (today, warning)) ∧
    (Session.strptimeYMDOk s = true →
      Session.daily_quest_date (some (.str s)) warning today = (s, false)) ∧
    Session.daily_quest_date (some (.dt y m d)) warning today =
      (Session.strftimeYMD y m d, false) ∧
    Session.daily_quest_date none warning today = (today, false) :=
  ⟨fun h => by simp [Session.daily_quest_date, h],
   fun h => by simp [Session.daily_quest_date, h], rfl, rfl⟩

theorem c9_witness :
    Session.daily_quest_date (some (.str "not-a-date")) true "2026-10-12" =
      ("2026-10-12", true) ∧
    Session.daily_quest_date (some (.str "2024-02-29")) true "2026-10-12" =
      ("2024-02-29", false) :=
  ⟨(c9_date_normalization "not-a-date" "2026-10-12" true 0 0 0).1 rfl,
   (c9_date_normalization "2024-02-29" "2026-10-12" true 0 0 0).2.1 rfl⟩

/-- C10: on a freshly constructed `Player` the daily-quest field holds
the `MISSING` sentinel and the property raises `InfinitodeError`, as
the claim says; but a fetch attempt with a session raises `TypeError`
(the call passes `beta=` to `daily_quest_leaderboards`, which has no
such parameter) before ever updating the field, so after the attempt
the property still raises — the claimed "returns None or the resolved
Score after a fetch attempt" state is unreachable. -/
theorem c10_fetch_bug (p : Player) (lbPlayer : Option Score)
    (h : p.daily_quest = .missing) :
    Player.daily_quest_property p =
      .error (.infinitodeError
        "This score has not been fetched yet. Use ~.fetch_daily_quest first.") ∧
    Player.fetch_daily_quest p true lbPlayer =
      .error (.typeError
        "daily_quest_leaderboards() got an unexpected keyword argument \x27beta\x27") := by
  constructor
  · simp [Player.daily_quest_property, h]
  · have hcall : sessionDailyQuestBetaCall lbPlayer =
        .error (.typeError
          "daily_quest_leaderboards() got an unexpected keyword argument \x27beta\x27") := rfl
    simp [Player.fetch_daily_quest, h, PyScoreField.truthy, hcall]

/-- A concrete `Player`, as `Player.__init__` would build one. -/
def player0 : Player :=
  { beta := false, playerid := "U-AAAA-BBBB-CCCCCC", nickname := "Nick",
    levels := [], level := 1, xp := 0, xp_max := 1, season_level := 1,
    season_xp := 0, season_xp_max := 500, badges := [], total_score := 0,
    total_rank := 0, total_top := .str "0%", replays := 0, issues := 0,
    created_at := "2020-01-01" }

theorem c10_witness :
    Player.daily_quest_property player0 =
      .error (.infinitodeError
        "This score has not been fetched yet. Use ~.fetch_daily_quest first.") ∧
    Player.fetch_daily_quest player0 true none =
      .error (.typeError
        "daily_quest_leaderboards() got an unexpected keyword argument \x27beta\x27") :=
  c10_fetch_bug player0 none rfl

/-- C5: the expiring cache of `utils.async_expiring_cache` (window 60
seconds).  From a state with no entry for `k`: the first call invokes
the wrapped operation; a second call with the same key within the
window returns the very same task handle without invoking and leaves
the cache unchanged; a call after the window re-invokes, hands out a
fresh handle and overwrites the entry; and a call with a different key
always invokes, yields a distinct handle and occupies its own cache
slot, leaving the first key's entry untouched. -/
theorem c5_expiring_cache {κ : Type} [DecidableEq κ]
    (st : CacheState κ) (k k2 : κ) (t1 t2 : Nat)
    (hk : assocLookup st.entries k = none) :
    (cacheCall 60 st t1 k).invoked = true ∧
    (t2 < t1 + 60 →
      cacheCall 60 (cacheCall 60 st t1 k).state t2 k =
        ⟨(cacheCall 60 st t1 k).task, false, (cacheCall 60 st t1 k).state⟩) ∧
    (t1 + 60 ≤ t2 →
      (cacheCall 60 (cacheCall 60 st t1 k).state t2 k).invoked = true ∧
      (cacheCall 60 (cacheCall 60 st t1 k).state t2 k).task ≠
        (cacheCall 60 st t1 k).task ∧
      assocLookup (cacheCall 60 (cacheCall 60 st t1 k).state t2 k).state.entries k =
        some ((cacheCall 60 (cacheCall 60 st t1 k).state t2 k).task, t2)) ∧
    (k2 ≠ k → assocLookup st.entries k2 = none →
      (cacheCall 60 (cacheCall 60 st t1 k).state t2 k2).invoked = true ∧
      (cacheCall 60 (cacheCall 60 st t1 k).state t2 k2).task ≠
        (cacheCall 60 st t1 k).task ∧
      assocLookup (cacheCall 60 (cacheCall 60 st t1 k).state t2 k2).state.entries k =
        some ((cacheCall 60 st t1 k).task, t1) ∧
      assocLookup (cacheCall 60 (cacheCall 60 st t1 k).state t2 k2).state.entries k2 =
        some ((cacheCall 60 (cacheCall 60 st t1 k).state t2 k2).task, t2)) := by
  have h1 : cacheCall 60 st t1 k =
      ⟨st.nextTask, true,
       ⟨assocInsert st.entries k (st.nextTask, t1), st.nextTask + 1⟩⟩ := by
    simp [cacheCall, hk]
  refine ⟨by simp [h1], ?_, ?_, ?_⟩
  · intro hlt
    rw [h1]
    simp [cacheCall, assocLookup_insert_self, hlt]
  · intro hge
    have hnlt : ¬ (t2 < t1 + 60) := by omega
    have h3 : cacheCall 60 (cacheCall 60 st t1 k).state t2 k =
        ⟨st.nextTask + 1, true,
         ⟨assocInsert (assocInsert st.entries k (st.nextTask, t1)) k
            (st.nextTask + 1, t2), st.nextTask + 2⟩⟩ := by
      rw [h1]
      simp [cacheCall, assocLookup_insert_self, hnlt]
    refine ⟨by simp [h3], by rw [h3, h1]; simp, ?_⟩
    simp only [h3]
    exact assocLookup_insert_self _ _ _
  · intro hne hk2
    have hl2 : assocLookup (assocInsert st.entries k (st.nextTask, t1)) k2 = none := by
      rw [assocLookup_insert_ne _ _ _ _ hne]; exact hk2
    have h2 : cacheCall 60 (cacheCall 60 st t1 k).state t2 k2 =
        ⟨st.nextTask + 1, true,
         ⟨assocInsert (assocInsert st.entries k (st.nextTask, t1)) k2
            (st.nextTask + 1, t2), st.nextTask + 2⟩⟩ := by
      rw [h1]
      simp [cacheCall, hl2]
    refine ⟨by simp [h2], by rw [h2, h1]; simp, ?_, ?_⟩
    · rw [h2, h1]
      simp only []
      rw [assocLookup_insert_ne _ _ _ _ (Ne.symm hne)]
      exact assocLookup_insert_self _ _ _
    · simp only [h2]
      exact assocLookup_insert_self _ _ _

/-- An empty cache over `Nat` keys. -/
def st0c : CacheState Nat := ⟨[], 0⟩

theorem c5_witness :
    (cacheCall 60 st0c 0 0).invoked = true ∧
    cacheCall 60 (cacheCall 60 st0c 0 0).state 30 0 =
      ⟨(cacheCall 60 st0c 0 0).task, false, (cacheCall 60 st0c 0 0).state⟩ ∧
    (cacheCall 60 (cacheCall 60 st0c 0 0).state 100 0).invoked = true ∧
    (cacheCall 60 (cacheCall 60 st0c 0 0).state 30 1).invoked = true :=
  ⟨(c5_expiring_cache st0c 0 1 0 30 rfl).1,
   (c5_expiring_cache st0c 0 1 0 30 rfl).2.1 (by decide),
   ((c5_expiring_cache st0c 0 1 0 100 rfl).2.2.1 (by decide)).1,
   ((c5_expiring_cache st0c 0 1 0 30 rfl).2.2.2 (by decide) rfl).1⟩


/-- Whatever the profile page contains, the dict built by
`Session._parse_player` never holds a `beta` key. -/
theorem parse_player_dict_beta (doc : ProfileDoc) (pid : String) (t : PlayerKwargs)
    (h : Session._parse_player_dict doc pid = .ok t) : t.beta = Option.none := by
  unfold Session._parse_player_dict at h
  repeat' split at h
  all_goals cases h
  all_goals rfl

/-- `Session._parse_player` raises on every input: even a fully
well-formed page reaches `Player(**t)` with no `beta` key, which
raises `TypeError`. -/
theorem parse_player_err (doc : ProfileDoc) (pid : String) :
    ∃ e, Session._parse_player doc pid = .error e := by
  unfold Session._parse_player
  cases h : Session._parse_player_dict doc pid with
  | error e => exact ⟨e, rfl⟩
  | ok t =>
    have hb := parse_player_dict_beta doc pid t h
    simp [Player.from_kwargs, hb]

/-- C2: for every response body, `Session._parse_player` never
returns a `Player` (the dict it builds lacks the required `beta`
argument of `Player.__init__`), and `Session.player` converts the
resulting exception into `BadArgument("Invalid playerid: ...")`. -/
theorem c2_player_never_returns (doc : ProfileDoc) (pid : String)
    (hpid : idRegexMatch pid = true) :
    (∀ p, Session._parse_player doc pid ≠ .ok p) ∧
    Session.player pid true doc =
      .error (.badArgument ("Invalid playerid: " ++ pid)) := by
  obtain ⟨e, he⟩ := parse_player_err doc pid
  constructor
  · intro p hp; rw [he] at hp; cases hp
  · have hkw : Session._kwarg_check none (some pid) none none = .ok () := by
      rw [kwarg_check_ok_iff]; simp [Option.all, hpid]
    simp [Session.player, hkw, he]

/-- A well-formed profile page whose season-XP block is absent and
whose (only counted) level row is marked "not ranked". -/
def docSeasonless : ProfileDoc :=
  { nickname_label := some "Nick",
    totals_div := none,
    comments := [],
    xp_div := some ⟨some "10 / 100"⟩,
    season_div := none,
    level_rows := [⟨[], true⟩, ⟨["1.1", "not ranked"], true⟩],
    badge_divs := [],
    footer_tables := [[some "a", some "b", some "Joined 1st January 2020"]] }

theorem c2_witness :
    Session.player "U-AAAA-BBBB-CCCCCC" true docSeasonless =
      .error (.badArgument ("Invalid playerid: " ++ "U-AAAA-BBBB-CCCCCC")) :=
  (c2_player_never_returns docSeasonless "U-AAAA-BBBB-CCCCCC" rfl).2

/-- C8, counterexample: on a profile page with the season block
absent, no "resulting Player" exists at all — `_parse_player` raises
`TypeError` (missing `beta`) after building the dict, so the claim's
"the resulting Player has season_level=1, ..." is unsatisfiable. -/
theorem c8_counterexample :
    docSeasonless.season_div = Option.none ∧
    Session._parse_player docSeasonless "U-AAAA-BBBB-CCCCCC" =
      .error (.typeError
        "__init__() missing 1 required positional argument: \x27beta\x27") :=
  ⟨rfl, rfl⟩

/-- When the season-XP block is absent, the mapping dict carries the
defaults `season_level = 1`, `season_xp = 0`, `season_xp_max = 500`. -/
theorem parse_player_dict_season (doc : ProfileDoc) (pid : String) (t : PlayerKwargs)
    (hs : doc.season_div = Option.none)
    (h : Session._parse_player_dict doc pid = .ok t) :
    t.season_level = 1 ∧ t.season_xp = 0 ∧ t.season_xp_max = 500 := by
  unfold Session._parse_player_dict at h
  rw [hs] at h
  repeat' split at h
  all_goals cases h
  all_goals simp_all [Session.parse_season]

/-- C8, amended: the HTML mapper's dict (not a returned `Player`,
which the missing-`beta` bug makes unreachable) carries
`season_level = 1`, `season_xp = 0`, `season_xp_max = 500` when the
season-XP block is absent; and every row marked "not ranked" is
mapped to a zero `Score` (`rank = 0`, `score = 0`, `total = 0`,
`top = "-%"`) instead of failing. -/
theorem c8_html_mapping (doc : ProfileDoc) (pid : String)
    (hs : doc.season_div = Option.none)
    (hok : (Session._parse_player_dict doc pid).isOk = true) :
    ((Session._parse_player_dict doc pid).toOption.map fun t =>
        (t.season_level, t.season_xp, t.season_xp_max)) = some (1, 0, 500) ∧
    (∀ (pid2 nick : String) (lvl : Int) (row : LevelRow) (l0 : String)
        (rest : List String),
      row.not_ranked = true → row.labels = l0 :: rest →
      Session.row_score pid2 nick lvl row =
        .ok (l0, { method := "player", mapname := l0, mode := "score",
                   difficulty := "NORMAL", playerid := pid2, rank := 0, score := 0,
                   top := some "-%", total := some 0, level := some lvl,
                   nickname := some nick })) := by
  constructor
  · cases h : Session._parse_player_dict doc pid with
    | error e => rw [h] at hok; simp [Except.isOk, Except.toBool] at hok
    | ok t =>
      obtain ⟨h1, h2, h3⟩ := parse_player_dict_season doc pid t hs h
      simp [Except.toOption, h1, h2, h3]
  · intro pid2 nick lvl row l0 rest hnr hlab
    simp [Session.row_score, hlab, pyIndex, hnr]

theorem c8_witness :
    ((Session._parse_player_dict docSeasonless "U-AAAA-BBBB-CCCCCC").toOption.map
        fun t => (t.season_level, t.season_xp, t.season_xp_max)) = some (1, 0, 500) ∧
    Session.row_score "U-AAAA-BBBB-CCCCCC" "Nick" 1 ⟨["1.1", "x"], true⟩ =
      .ok ("1.1", { method := "player", mapname := "1.1", mode := "score",
                    difficulty := "NORMAL", playerid := "U-AAAA-BBBB-CCCCCC",
                    rank := 0, score := 0, top := some "-%", total := some 0,
                    level := some 1, nickname := some "Nick" }) :=
  ⟨(c8_html_mapping docSeasonless "U-AAAA-BBBB-CCCCCC" rfl rfl).1,
   (c8_html_mapping docSeasonless "U-AAAA-BBBB-CCCCCC" rfl rfl).2 _ _ _ _ _ _ rfl rfl⟩



/-- C7: slicing a leaderboard whose scores are ranked `1..N` yields a
new `Leaderboard` with identical method, mapname, mode, difficulty,
total (and raw payload, date, season, player), whose scores are
exactly the selected sub-sequence in order; the score at offset `j` of
slice `[start:stop]` has rank `start + j + 1` (so `[1:3]` keeps ranks
2 and 3).  The embedding is pure, so the parent is unchanged. -/
theorem c7_slice_leaderboard (lb : Leaderboard) (start stop : Nat)
    (hranks : ∀ i : Fin lb.scores.length,
      (lb.scores.get i).rank = ((i : Nat) : Int) + 1) :
    (lb.getitem_slice start stop).method = lb.method ∧
    (lb.getitem_slice start stop).mapname = lb.mapname ∧
    (lb.getitem_slice start stop).mode = lb.mode ∧
    (lb.getitem_slice start stop).difficulty = lb.difficulty ∧
    (lb.getitem_slice start stop).total = lb.total ∧
    (lb.getitem_slice start stop).raw = lb.raw ∧
    (lb.getitem_slice start stop).date = lb.date ∧
    (lb.getitem_slice start stop).season = lb.season ∧
    (lb.getitem_slice start stop).player = lb.player ∧
    (lb.getitem_slice start stop).scores =
      (lb.scores.drop start).take (stop - start) ∧
    ∀ j : Fin (lb.getitem_slice start stop).scores.length,
      ((lb.getitem_slice start stop).scores.get j).rank =
        ((start + (j : Nat) : Nat) : Int) + 1 := by
  refine ⟨rfl, rfl, rfl, rfl, rfl, rfl, rfl, rfl, rfl, rfl, ?_⟩
  intro j
  have hj := j.isLt
  simp only [Leaderboard.getitem_slice, List.length_take, List.length_drop] at hj
  have hlt : start + (j : Nat) < lb.scores.length := by omega
  have := hranks ⟨start + (j : Nat), hlt⟩
  simp only [Leaderboard.getitem_slice, List.get_eq_getElem, List.getElem_take,
    List.getElem_drop] at this ⊢
  exact this

def scoreN (r : Nat) : Score :=
  { method := "leaderboards", mapname := "1.1", mode := "score",
    difficulty := "NORMAL", playerid := "U-AAAA-BBBB-CCCCCC",
    rank := (r : Int), score := (1000 - r : Int) }

def lb5 : Leaderboard :=
  { method := "leaderboards", mapname := "1.1", mode := "score",
    difficulty := "NORMAL", total := 5, raw := { status := "success" },
    scores := [scoreN 1, scoreN 2, scoreN 3, scoreN 4, scoreN 5] }

theorem c7_witness :
    (lb5.getitem_slice 1 3).scores = (lb5.scores.drop 1).take 2 ∧
    (lb5.getitem_slice 1 3).total = lb5.total ∧
    ∀ j : Fin (lb5.getitem_slice 1 3).scores.length,
      ((lb5.getitem_slice 1 3).scores.get j).rank =
        ((1 + (j : Nat) : Nat) : Int) + 1 :=
  ⟨(c7_slice_leaderboard lb5 1 3 (by decide)).2.2.2.2.2.2.2.2.2.1,
   (c7_slice_leaderboard lb5 1 3 (by decide)).2.2.2.2.1,
   (c7_slice_leaderboard lb5 1 3 (by decide)).2.2.2.2.2.2.2.2.2.2⟩



/-- C3: every valid (map, mode, difficulty) triple passes
`_kwarg_check` and the operation issues its one POST request; any
value outside the enumerated sets makes the operation raise
`BadArgument` (the spec's `InvalidArgument`) with no request issued. -/
theorem c3_validation_gate (m p mo d : String) (resp : HttpResponse) :
    ((m ∈ LEVELS ∧ idRegexMatch p = true ∧ (mo = "score" ∨ mo = "waves") ∧
        (d = "EASY" ∨ d = "NORMAL" ∨ d = "ENDLESS_I")) →
      Session._kwarg_check (some m) (some p) (some mo) (some d) = .ok () ∧
      (Session.leaderboards_rank m p mo d resp).2 =
        [⟨"getLeaderboardsRank", Session.lbData d (some p) m mo⟩]) ∧
    ((m ∉ LEVELS ∨ ¬(mo = "score" ∨ mo = "waves") ∨
        ¬(d = "EASY" ∨ d = "NORMAL" ∨ d = "ENDLESS_I")) →
      (∃ msg, (Session.leaderboards_rank m p mo d resp).1 =
        .error (.badArgument msg)) ∧
      (Session.leaderboards_rank m p mo d resp).2 = []) := by
  constructor
  · rintro ⟨hm, hp, hmo, hd⟩
    have hok : Session._kwarg_check (some m) (some p) (some mo) (some d) = .ok () := by
      rw [kwarg_check_ok_iff]
      refine ⟨?_, ?_, ?_, ?_⟩ <;> simp [Option.all, hp]
      · exact hm
      · rcases hmo with h | h <;> simp [h]
      · rcases hd with h | h | h <;> simp [h]
    refine ⟨hok, ?_⟩
    simp only [Session.leaderboards_rank, hok]
    cases h2 : Session._post resp <;> simp
  · intro hbad
    have hnok : Session._kwarg_check (some m) (some p) (some mo) (some d) ≠ .ok () := by
      intro hcontra
      rw [kwarg_check_ok_iff] at hcontra
      obtain ⟨h1, h2, h3, h4⟩ := hcontra
      simp [Option.all] at h1 h3 h4
      rcases hbad with hb | hb | hb
      · exact hb (by simpa using h1)
      · exact hb (by simpa using h3)
      · exact hb (by tauto)
    rcases kwarg_check_ok_or_bad (some m) (some p) (some mo) (some d) with h | ⟨msg, h⟩
    · exact absurd h hnok
    · constructor
      · exact ⟨msg, by simp [Session.leaderboards_rank, h]⟩
      · simp [Session.leaderboards_rank, h]

theorem c3_witness :
    (Session._kwarg_check (some "1.1") (some "U-AAAA-BBBB-CCCCCC") (some "score")
        (some "NORMAL") = .ok () ∧
      (Session.leaderboards_rank "1.1" "U-AAAA-BBBB-CCCCCC" "score" "NORMAL" respFail).2 =
        [⟨"getLeaderboardsRank",
          Session.lbData "NORMAL" (some "U-AAAA-BBBB-CCCCCC") "1.1" "score"⟩]) ∧
    ((∃ msg, (Session.leaderboards_rank "bogus" "U-AAAA-BBBB-CCCCCC" "score" "NORMAL"
        respFail).1 = .error (.badArgument msg)) ∧
      (Session.leaderboards_rank "bogus" "U-AAAA-BBBB-CCCCCC" "score" "NORMAL"
        respFail).2 = []) :=
  ⟨(c3_validation_gate "1.1" "U-AAAA-BBBB-CCCCCC" "score" "NORMAL" respFail).1
      ⟨by decide, rfl, Or.inl rfl, Or.inr (Or.inl rfl)⟩,
   (c3_validation_gate "bogus" "U-AAAA-BBBB-CCCCCC" "score" "NORMAL" respFail).2
      (Or.inl (by decide))⟩



theorem kwarg_check_of_valid (m p mo d : String) (hm : m ∈ LEVELS)
    (hp : idRegexMatch p = true) (hmo : mo = "score" ∨ mo = "waves")
    (hd : d = "EASY" ∨ d = "NORMAL" ∨ d = "ENDLESS_I") :
    Session._kwarg_check (some m) (some p) (some mo) (some d) = .ok () := by
  rw [kwarg_check_ok_iff]
  refine ⟨?_, ?_, ?_, ?_⟩ <;> simp [Option.all, hp]
  · exact hm
  · rcases hmo with h | h <;> simp [h]
  · rcases hd with h | h | h <;> simp [h]

theorem idRegex_ne_empty (s : String) (h : idRegexMatch s = true) : s ≠ "" := by
  intro he
  subst he
  exact absurd h (by decide)

/-- C6, amended: a leaderboards call made with a player identifier
always bypasses the cache lookup and issues a fresh POST request; it
stores its result in the cache exactly when the returned leaderboard
carries no player score (`lb.player is None`) — which happens for
anonymous calls, but also for personalized calls whose player is
unranked (see the counterexample); a personalized call whose player is
ranked leaves the cache untouched. -/
theorem c6_personalized_cache (st : Session.LBState) (now : Nat)
    (m pid mo d : String) (resp : HttpResponse)
    (hm : m ∈ LEVELS) (hp : idRegexMatch pid = true)
    (hmo : mo = "score" ∨ mo = "waves")
    (hd : d = "EASY" ∨ d = "NORMAL" ∨ d = "ENDLESS_I") :
    (Session.leaderboards st now m (some pid) mo d resp).2 =
      [⟨"getLeaderboards", Session.lbData d (some pid) m mo⟩] ∧
    (∀ lb st2,
      (Session.leaderboards st now m (some pid) mo d resp).1 = .ok (lb, st2) →
      (lb.player = none →
        st2.Leaderboards = assocInsert st.Leaderboards (d ++ mo ++ m) lb ∧
        st2.cooldown = assocInsert st.cooldown (d ++ mo ++ m) now) ∧
      (lb.player ≠ none → st2 = st)) := by
  have hok := kwarg_check_of_valid m pid mo d hm hp hmo hd
  have hfal : Session.pyFalsy (some pid) = false := by
    simp [Session.pyFalsy, idRegex_ne_empty pid hp]
  unfold Session.leaderboards
  rw [hok]
  simp only [hfal, Bool.false_and, Bool.false_eq_true, if_false]
  cases h2 : Session._post resp with
  | error e => simp [h2]
  | ok payload =>
    simp only [h2]
    cases h3 : Leaderboard.from_payload "leaderboards" m mo d (some pid) payload
        none none with
    | error e => simp [h3]
    | ok lb =>
      simp only [h3]
      cases h4 : lb.player with
      | none =>
        simp only [h4]
        refine ⟨trivial, ?_⟩
        intro lb2 st2 heq
        simp only [Except.ok.injEq, Prod.mk.injEq] at heq
        obtain ⟨hlb, hst⟩ := heq
        subst hlb
        subst hst
        refine ⟨fun _ => ⟨rfl, rfl⟩, fun hne => absurd h4 hne⟩
      | some s =>
        simp only [h4]
        refine ⟨trivial, ?_⟩
        intro lb2 st2 heq
        simp only [Except.ok.injEq, Prod.mk.injEq] at heq
        obtain ⟨hlb, hst⟩ := heq
        subst hlb
        subst hst
        refine ⟨fun hnone => ?_, fun _ => rfl⟩
        rw [h4] at hnone
        cases hnone


/-- A successful payload in which the requesting player is unranked
(`player["score"]` is `0`, falsy). -/
def payloadUnranked : Payload :=
  { status := "success",
    player := { total := some 5, score := some 0, rank := some 0 },
    leaderboards := [] }

def respUnranked : HttpResponse := ⟨true, payloadUnranked⟩

/-- An empty session cache state. -/
def lbState0 : Session.LBState := ⟨[], []⟩

/-- C6, counterexample: a call made WITH a player identifier (so not
an anonymous call) whose response reports the player unranked produces
`lb.player is None` and therefore DOES store its result in the cache
slot, refuting "only calls made without a player identifier store a
result in the cache". -/
theorem c6_counterexample :
    ((Session.leaderboards lbState0 100 "1.1" (some "U-AAAA-BBBB-CCCCCC") "score"
        "NORMAL" respUnranked).1.toOption.map fun r =>
      (assocLookup r.2.Leaderboards "NORMALscore1.1").isSome) = some true ∧
    Session.pyFalsy (some "U-AAAA-BBBB-CCCCCC") = false :=
  ⟨rfl, rfl⟩

theorem c6_witness :
    (Session.leaderboards lbState0 100 "1.1" (some "U-AAAA-BBBB-CCCCCC") "score"
        "NORMAL" respUnranked).2 =
      [⟨"getLeaderboards",
        Session.lbData "NORMAL" (some "U-AAAA-BBBB-CCCCCC") "1.1" "score"⟩] :=
  (c6_personalized_cache lbState0 100 "1.1" "U-AAAA-BBBB-CCCCCC" "score" "NORMAL"
    respUnranked (by decide) rfl (Or.inl rfl) (Or.inr (Or.inl rfl))).1


end Infinitode
